import Mathlib

/-
Shallow embedding of src/hand_arduino_controller.py, the gesture-to-command
pipeline of the hand-gesture Arduino controller, together with theorems
settling the specified properties.

The embedding mirrors the Python source:
* `akCountFingers` embeds `AHMDHandDetector.akCountFingers` (lines 109-127):
  a landmark is the tuple `(id, cx, cy)` of integers produced by
  `akDetectHands`; indexing `landmarks[k][1]` / `landmarks[k][2]` becomes the
  `x` / `y` field of the `k`-th list element.
* `AKArduinoController` embeds the class of the same name (lines 130-170).
  The external serial transport is modelled by an event trace
  (`SerialEvent`) emitted by each operation, and the outcome of the
  fallible external calls (`serial.Serial(...)` in `ahmdConnect`,
  `arduino.write(...)` in `akSendData`) is an explicit boolean parameter:
  the Python code catches `serial.SerialException` from these calls, so
  every control path is total and is reflected by a branch here.
* `ahmdProcessFrame` embeds `AHMDGestureController.ahmdProcessFrame`
  (lines 218-230); the Landmark Source (MediaPipe) is external, so its
  output `all_landmarks` is a parameter.
-/

namespace HandArduino

/-- One hand landmark as built by `akDetectHands`: the tuple `(id, cx, cy)`
where `cx`, `cy` are integer pixel coordinates. -/
structure Landmark where
  id : Int
  x : Int
  y : Int
deriving Repr, DecidableEq

/-- Python list indexing `landmarks[i]`; in every use the index is in range
(the caller checks `len(landmarks) == 21` first), so the default is inert. -/
def lmGet (landmarks : List Landmark) (i : Nat) : Landmark :=
  landmarks.getD i ⟨0, 0, 0⟩

/-- `self.akFingerTipIds = [4, 8, 12, 16, 20]` (line 78). -/
def akFingerTipIds : List Nat := [4, 8, 12, 16, 20]

/-- The thumb branch of `akCountFingers` (lines 116-119):
`landmarks[tip[0]][1] > landmarks[tip[0] - 1][1]` appends 1, else 0. -/
def akThumbBit (landmarks : List Landmark) : Nat :=
  if (lmGet landmarks (akFingerTipIds.getD 0 0)).x >
      (lmGet landmarks (akFingerTipIds.getD 0 0 - 1)).x then 1 else 0

/-- The non-thumb branch of `akCountFingers` for loop index `i ∈ [1,4]`
(lines 121-125): `landmarks[tip[i]][2] < landmarks[tip[i] - 2][2]`
appends 1, else 0. -/
def akFingerBit (landmarks : List Landmark) (i : Nat) : Nat :=
  if (lmGet landmarks (akFingerTipIds.getD i 0)).y <
      (lmGet landmarks (akFingerTipIds.getD i 0 - 2)).y then 1 else 0

/-- `AHMDHandDetector.akCountFingers` (lines 109-127): returns 0 when the
landmark list does not have exactly 21 entries, otherwise builds the five
finger bits (thumb first, then loop indices 1..4 = `range(1, 5)`) and
returns `fingers.count(1)`. -/
def akCountFingers (landmarks : List Landmark) : Nat :=
  if landmarks.length ≠ 21 then 0
  else
    ([akThumbBit landmarks] ++ (List.range' 1 4).map (akFingerBit landmarks)).count 1

/-- Observable effects of the Arduino controller on its external
collaborators: the serial port, the clock (`time.sleep`) and the log. -/
inductive SerialEvent where
  | openPort (port : String) (baud : Int) (timeout : Int)
  | sleep (seconds : Nat)
  | write (data : List Nat)
  | closePort
  | logInfo (msg : String)
  | logError (msg : String)
deriving Repr, DecidableEq

/-- State of `AKArduinoController` (lines 133-138): constructor arguments
plus `self.arduino` (the serial handle, `None` until a successful open)
and `self.isConnected`. -/
structure AKArduinoController where
  port : String
  baud_rate : Int
  timeout : Int
  arduino : Option Unit
  isConnected : Bool
deriving Repr, DecidableEq

/-- `AKArduinoController.__init__` (lines 133-138): `arduino = None`,
`isConnected = False`. -/
def akInit (port : String) (baud_rate : Int) (timeout : Int) : AKArduinoController :=
  ⟨port, baud_rate, timeout, none, false⟩

/-- Result of `ahmdConnect`: returned boolean, updated state, event trace. -/
structure ConnectResult where
  ok : Bool
  st : AKArduinoController
  events : List SerialEvent
deriving Repr, DecidableEq

/-- `AKArduinoController.ahmdConnect` (lines 140-151). `openOk` is the
outcome of the external `serial.Serial(...)` call: on success the code
sleeps 2 seconds, sets `isConnected = True`, logs and returns `True`; when
the call raises `serial.SerialException` the handler logs the error, sets
`isConnected = False` and returns `False` (`self.arduino` is unchanged
because the assignment never completed, and no sleep happens). -/
def ahmdConnect (st : AKArduinoController) (openOk : Bool) : ConnectResult :=
  if openOk then
    ⟨true,
      ⟨st.port, st.baud_rate, st.timeout, some (), true⟩,
      [SerialEvent.openPort st.port st.baud_rate st.timeout,
        SerialEvent.sleep 2,
        SerialEvent.logInfo "AK Arduino connected"]⟩
  else
    ⟨false,
      ⟨st.port, st.baud_rate, st.timeout, st.arduino, false⟩,
      [SerialEvent.openPort st.port st.baud_rate st.timeout,
        SerialEvent.logError "AHMD Arduino connection failed"]⟩

/-- The bytes produced by `bytes(str(data), 'utf-8')` for a natural-number
`data`: the decimal digit characters, each as its code point (for ASCII
characters the UTF-8 encoding is the code point itself). -/
def pyStrBytes (n : Nat) : List Nat :=
  (Nat.toDigits 10 n).map Char.toNat

/-- The spec's wire format, written from the spec's words: the decimal
textual encoding of the value, as bytes. -/
def decimalBytes (n : Nat) : List Nat :=
  (toString n).data.map Char.toNat

/-- Result of `akSendData`: returned boolean, updated state, event trace. -/
structure SendResult where
  ok : Bool
  st : AKArduinoController
  events : List SerialEvent
deriving Repr, DecidableEq

/-- `AKArduinoController.akSendData` (lines 153-163): returns `False` at
once when `not self.isConnected or not self.arduino`; otherwise writes
`bytes(str(data), 'utf-8')`. `writeOk` is the outcome of the external
`self.arduino.write` call: when it raises `serial.SerialException` the
handler logs the error and returns `False`, leaving all fields unchanged. -/
def akSendData (st : AKArduinoController) (writeOk : Bool) (data : Nat) : SendResult :=
  if st.isConnected && st.arduino.isSome then
    if writeOk then
      ⟨true, st, [SerialEvent.write (pyStrBytes data)]⟩
    else
      ⟨false, st, [SerialEvent.logError "AK data transmission failed"]⟩
  else
    ⟨false, st, []⟩

/-- Result of `ahmdDisconnect`: updated state and event trace. -/
structure DisconnectResult where
  st : AKArduinoController
  events : List SerialEvent
deriving Repr, DecidableEq

/-- `AKArduinoController.ahmdDisconnect` (lines 165-170): only when
`self.arduino and self.isConnected` does it close the port, set
`isConnected = False` and log; otherwise it does nothing. -/
def ahmdDisconnect (st : AKArduinoController) : DisconnectResult :=
  if st.arduino.isSome && st.isConnected then
    ⟨⟨st.port, st.baud_rate, st.timeout, st.arduino, false⟩,
      [SerialEvent.closePort, SerialEvent.logInfo "AHMD Arduino disconnected"]⟩
  else
    ⟨st, []⟩

/-- Result of `ahmdProcessFrame` restricted to the command pipeline: the
cycle's `finger_count`, the Arduino state after the cycle, the list of
values passed to `akSendData` during the cycle, and the serial events. -/
structure FrameResult where
  finger_count : Nat
  st : AKArduinoController
  sendCalls : List Nat
  events : List SerialEvent
deriving Repr, DecidableEq

/-- `AHMDGestureController.ahmdProcessFrame` (lines 218-230), with the
Landmark Source's output `all_landmarks` as a parameter (frame flipping
and detection are external): `finger_count = 0`; if `all_landmarks` is
non-empty, `finger_count = akCountFingers(all_landmarks[0])` and, when
`self.arduino.isConnected`, one call `akSendData(finger_count)` is made. -/
def ahmdProcessFrame (ard : AKArduinoController) (all_landmarks : List (List Landmark))
    (writeOk : Bool) : FrameResult :=
  match all_landmarks with
  | [] => ⟨0, ard, [], []⟩
  | first :: _ =>
      let finger_count := akCountFingers first
      if ard.isConnected then
        let r := akSendData ard writeOk finger_count
        ⟨finger_count, r.st, [finger_count], r.events⟩
      else
        ⟨finger_count, ard, [], []⟩

/-- A concrete 21-landmark hand (the spec's end-to-end scenario): thumb,
index and middle finger extended per the geometric rule, ring and pinky
retracted, giving finger count 3. -/
def testHand3 : List Landmark :=
  [⟨0, 10, 100⟩, ⟨1, 10, 100⟩, ⟨2, 10, 100⟩, ⟨3, 50, 100⟩, ⟨4, 60, 100⟩,
   ⟨5, 10, 100⟩, ⟨6, 10, 100⟩, ⟨7, 10, 100⟩, ⟨8, 10, 50⟩, ⟨9, 10, 100⟩,
   ⟨10, 10, 100⟩, ⟨11, 10, 100⟩, ⟨12, 10, 50⟩, ⟨13, 10, 100⟩, ⟨14, 10, 100⟩,
   ⟨15, 10, 100⟩, ⟨16, 10, 150⟩, ⟨17, 10, 100⟩, ⟨18, 10, 100⟩, ⟨19, 10, 100⟩,
   ⟨20, 10, 150⟩]

/-- A second 21-landmark hand agreeing with `testHand3` exactly on the ten
coordinates the counter reads (x of landmarks 3 and 4; y of landmarks
6, 8, 10, 12, 14, 16, 18, 20) and differing everywhere else. -/
def testHand3Moved : List Landmark :=
  [⟨7, 99, 1⟩, ⟨7, 99, 1⟩, ⟨7, 99, 1⟩, ⟨3, 50, 1⟩, ⟨4, 60, 1⟩,
   ⟨7, 99, 1⟩, ⟨6, 99, 100⟩, ⟨7, 99, 1⟩, ⟨8, 99, 50⟩, ⟨7, 99, 1⟩,
   ⟨10, 99, 100⟩, ⟨7, 99, 1⟩, ⟨12, 99, 50⟩, ⟨7, 99, 1⟩, ⟨14, 99, 100⟩,
   ⟨7, 99, 1⟩, ⟨16, 99, 150⟩, ⟨7, 99, 1⟩, ⟨18, 99, 100⟩, ⟨7, 99, 1⟩,
   ⟨20, 99, 150⟩]

/-- A degenerate landmark list with one entry (length ≠ 21). -/
def shortHand : List Landmark := [⟨0, 10, 100⟩]

/-- A connected controller state, as produced by a successful `ahmdConnect`. -/
def testConnected : AKArduinoController := ⟨"COM3", 9600, 2, some (), true⟩

lemma akThumbBit_dichotomy (l : List Landmark) : akThumbBit l = 0 ∨ akThumbBit l = 1 := by
  unfold akThumbBit; split <;> simp

lemma akFingerBit_dichotomy (l : List Landmark) (i : Nat) :
    akFingerBit l i = 0 ∨ akFingerBit l i = 1 := by
  unfold akFingerBit; split <;> simp

lemma count_one_cons (x : Nat) (xs : List Nat) (hx : x = 0 ∨ x = 1) :
    (x :: xs).count 1 = xs.count 1 + x := by
  rcases hx with rfl | rfl <;> simp [List.count_cons]

/-- On a 21-entry list, `akCountFingers` is the sum of the five finger bits. -/
lemma akCountFingers_eq_sum (l : List Landmark) (h : l.length = 21) :
    akCountFingers l =
      akThumbBit l + akFingerBit l 1 + akFingerBit l 2 + akFingerBit l 3 + akFingerBit l 4 := by
  unfold akCountFingers
  rw [if_neg (by omega)]
  show (akThumbBit l :: akFingerBit l 1 :: akFingerBit l 2 :: akFingerBit l 3 ::
      akFingerBit l 4 :: ([] : List Nat)).count 1 = _
  rw [count_one_cons _ _ (akThumbBit_dichotomy l),
    count_one_cons _ _ (akFingerBit_dichotomy l 1),
    count_one_cons _ _ (akFingerBit_dichotomy l 2),
    count_one_cons _ _ (akFingerBit_dichotomy l 3),
    count_one_cons _ _ (akFingerBit_dichotomy l 4)]
  simp [List.count_nil]
  omega

lemma ite_one_eq_one {P : Prop} [Decidable P] : (if P then (1 : Nat) else 0) = 1 ↔ P := by
  split <;> simp [*]

/-- C1: per processed frame, if the Landmark Source yields no hands the
cycle's finger count is 0 and no send is attempted; if at least one hand is
returned the first hand is counted, and exactly one `akSendData` call
carrying that count is made if and only if the channel is connected. -/
theorem c1_frame_send_discipline (ard : AKArduinoController)
    (first : List Landmark) (rest : List (List Landmark)) (w : Bool) :
    ahmdProcessFrame ard [] w = ⟨0, ard, [], []⟩ ∧
    (ahmdProcessFrame ard (first :: rest) w).finger_count = akCountFingers first ∧
    (ahmdProcessFrame ard (first :: rest) w).sendCalls =
      (if ard.isConnected then [akCountFingers first] else []) ∧
    (ahmdProcessFrame ard (first :: rest) w).sendCalls.length =
      (if ard.isConnected then 1 else 0) := by
  refine ⟨rfl, ?_, ?_, ?_⟩ <;> cases h : ard.isConnected <;> simp [ahmdProcessFrame, h]

/-- C2: on a 21-landmark hand the thumb is classified extended iff the tip's
(landmark 4) horizontal coordinate lies further from the hand's center than
the adjacent joint's (landmark 3), for any center abscissa `c` on the
non-thumb side of both (the mirrored-frame convention the code's `>` test
assumes); the count tallies this thumb bit with the four finger bits. -/
theorem c2_thumb_extension_rule (l : List Landmark) (c : Int)
    (h3 : c ≤ (lmGet l 3).x) (h4 : c ≤ (lmGet l 4).x) (hlen : l.length = 21) :
    (akThumbBit l = 1 ↔ ((lmGet l 3).x - c).natAbs < ((lmGet l 4).x - c).natAbs) ∧
    akCountFingers l =
      akThumbBit l + akFingerBit l 1 + akFingerBit l 2 + akFingerBit l 3 + akFingerBit l 4 := by
  refine ⟨?_, akCountFingers_eq_sum l hlen⟩
  have e : akThumbBit l = if (lmGet l 3).x < (lmGet l 4).x then 1 else 0 := rfl
  rw [e]
  by_cases h : (lmGet l 3).x < (lmGet l 4).x
  · rw [if_pos h]
    constructor <;> intro h' <;> omega
  · rw [if_neg h]
    constructor <;> intro h' <;> omega

theorem c2_thumb_extension_rule_witness :
    (0 : Int) ≤ (lmGet testHand3 3).x ∧ (0 : Int) ≤ (lmGet testHand3 4).x ∧
    testHand3.length = 21 ∧
    ((akThumbBit testHand3 = 1 ↔
        ((lmGet testHand3 3).x - 0).natAbs < ((lmGet testHand3 4).x - 0).natAbs) ∧
      akCountFingers testHand3 =
        akThumbBit testHand3 + akFingerBit testHand3 1 + akFingerBit testHand3 2 +
          akFingerBit testHand3 3 + akFingerBit testHand3 4) :=
  ⟨by decide, by decide, by decide,
    c2_thumb_extension_rule testHand3 0 (by decide) (by decide) (by decide)⟩

/-- C3: on a 21-landmark hand each non-thumb finger (tips 8, 12, 16, 20) is
classified extended iff the tip's vertical coordinate is strictly less than
that of the landmark two joints proximal (tip id minus 2), and the result
is the tally of the thumb bit and these four bits. -/
theorem c3_nonthumb_extension_rule (l : List Landmark) (hlen : l.length = 21) :
    (akFingerBit l 1 = 1 ↔ (lmGet l 8).y < (lmGet l 6).y) ∧
    (akFingerBit l 2 = 1 ↔ (lmGet l 12).y < (lmGet l 10).y) ∧
    (akFingerBit l 3 = 1 ↔ (lmGet l 16).y < (lmGet l 14).y) ∧
    (akFingerBit l 4 = 1 ↔ (lmGet l 20).y < (lmGet l 18).y) ∧
    akCountFingers l =
      akThumbBit l + akFingerBit l 1 + akFingerBit l 2 + akFingerBit l 3 + akFingerBit l 4 :=
  ⟨ite_one_eq_one, ite_one_eq_one, ite_one_eq_one, ite_one_eq_one,
    akCountFingers_eq_sum l hlen⟩

theorem c3_nonthumb_extension_rule_witness :
    testHand3.length = 21 ∧
    ((akFingerBit testHand3 1 = 1 ↔ (lmGet testHand3 8).y < (lmGet testHand3 6).y) ∧
      (akFingerBit testHand3 2 = 1 ↔ (lmGet testHand3 12).y < (lmGet testHand3 10).y) ∧
      (akFingerBit testHand3 3 = 1 ↔ (lmGet testHand3 16).y < (lmGet testHand3 14).y) ∧
      (akFingerBit testHand3 4 = 1 ↔ (lmGet testHand3 20).y < (lmGet testHand3 18).y) ∧
      akCountFingers testHand3 =
        akThumbBit testHand3 + akFingerBit testHand3 1 + akFingerBit testHand3 2 +
          akFingerBit testHand3 3 + akFingerBit testHand3 4) :=
  ⟨by decide, c3_nonthumb_extension_rule testHand3 (by decide)⟩

/-- C4: on a 21-landmark hand the finger count is an integer in [0, 5]
(the lower bound is inherent to `Nat`), and the function is deterministic:
equal inputs give equal outputs. -/
theorem c4_count_range_deterministic (l : List Landmark) (hlen : l.length = 21) :
    akCountFingers l ≤ 5 ∧
    ∀ l' : List Landmark, l' = l → akCountFingers l' = akCountFingers l := by
  constructor
  · have h0 := akThumbBit_dichotomy l
    have h1 := akFingerBit_dichotomy l 1
    have h2 := akFingerBit_dichotomy l 2
    have h3 := akFingerBit_dichotomy l 3
    have h4 := akFingerBit_dichotomy l 4
    rw [akCountFingers_eq_sum l hlen]
    omega
  · intro l' h
    rw [h]

theorem c4_count_range_deterministic_witness :
    testHand3.length = 21 ∧ akCountFingers testHand3 ≤ 5 ∧
    akCountFingers testHand3 = akCountFingers testHand3 :=
  ⟨by decide, (c4_count_range_deterministic testHand3 (by decide)).1,
    (c4_count_range_deterministic testHand3 (by decide)).2 testHand3 rfl⟩

/-- C5: on any landmark list whose length is not 21 the finger count is 0,
as a defined total result (the embedding is a total function, mirroring the
early `return 0` of the code; no exception path exists). -/
theorem c5_degenerate_length (l : List Landmark) (hlen : l.length ≠ 21) :
    akCountFingers l = 0 := by
  unfold akCountFingers
  rw [if_pos hlen]

theorem c5_degenerate_length_witness :
    shortHand.length ≠ 21 ∧ akCountFingers shortHand = 0 :=
  ⟨by decide, c5_degenerate_length shortHand (by decide)⟩

/-- C6: for any value, `akSendData` on a non-connected state (in particular
the freshly initialised state, before any successful connect) returns
false at once with no effect and no exception path; on a connected state
whose transport write fails it logs the error, returns false and leaves
the state unchanged — still connected (no auto-downgrade). -/
theorem c6_send_failure_semantics (p : String) (b t : Int) (a : Option Unit)
    (w : Bool) (d : Nat) :
    akSendData ⟨p, b, t, a, false⟩ w d = ⟨false, ⟨p, b, t, a, false⟩, []⟩ ∧
    akSendData (akInit p b t) w d = ⟨false, akInit p b t, []⟩ ∧
    akSendData ⟨p, b, t, some (), true⟩ false d =
      ⟨false, ⟨p, b, t, some (), true⟩,
        [SerialEvent.logError "AK data transmission failed"]⟩ ∧
    (akSendData ⟨p, b, t, some (), true⟩ false d).st.isConnected = true := by
  refine ⟨?_, ?_, rfl, rfl⟩ <;> simp [akSendData, akInit]

/-- C7: `ahmdConnect` on a successful open returns true and sets the state
connected, its event trace showing the fixed two-second settle sleep after
the port open and before the call returns (so before any send can run); on
a failed open it logs the cause, returns false, and leaves a non-sending
state (`isConnected` false, so every subsequent send returns false). -/
theorem c7_connect_semantics (st : AKArduinoController) (w : Bool) (d : Nat) :
    (ahmdConnect st true).ok = true ∧
    (ahmdConnect st true).st.isConnected = true ∧
    (ahmdConnect st true).events =
      [SerialEvent.openPort st.port st.baud_rate st.timeout, SerialEvent.sleep 2,
        SerialEvent.logInfo "AK Arduino connected"] ∧
    (ahmdConnect st false).ok = false ∧
    (ahmdConnect st false).st.isConnected = false ∧
    (ahmdConnect st false).events =
      [SerialEvent.openPort st.port st.baud_rate st.timeout,
        SerialEvent.logError "AHMD Arduino connection failed"] ∧
    (akSendData (ahmdConnect st false).st w d).ok = false := by
  refine ⟨rfl, rfl, rfl, rfl, rfl, rfl, ?_⟩
  simp [ahmdConnect, akSendData]

/-- C8: `ahmdDisconnect` is idempotent — from a connected state it leaves a
disconnected state, a second call (and any call on a non-connected state,
including the never-connected initial state) is a no-op with no fault; and
after a successful connect, disconnect followed by send returns false. -/
theorem c8_disconnect_idempotent (p : String) (b t : Int) (a : Option Unit)
    (w : Bool) (d : Nat) :
    (ahmdDisconnect ⟨p, b, t, some (), true⟩).st = ⟨p, b, t, some (), false⟩ ∧
    (ahmdDisconnect ⟨p, b, t, some (), true⟩).st.isConnected = false ∧
    ahmdDisconnect ⟨p, b, t, a, false⟩ = ⟨⟨p, b, t, a, false⟩, []⟩ ∧
    ahmdDisconnect (akInit p b t) = ⟨akInit p b t, []⟩ ∧
    (akInit p b t).isConnected = false ∧
    (akSendData (ahmdDisconnect (ahmdConnect (akInit p b t) true).st).st w d).ok =
      false := by
  refine ⟨rfl, rfl, ?_, ?_, rfl, ?_⟩ <;> simp [ahmdDisconnect, ahmdConnect, akSendData, akInit]

/-- C9: the bytes written for a sent finger count are exactly the decimal
textual encoding of that count — one `write` event whose payload is the
digit characters' byte values, with no framing or delimiter — and for the
count 3 that payload is the single byte 51 (character "3"). -/
theorem c9_wire_format (p : String) (b t : Int) (n : Nat)
    (first : List Landmark) (rest : List (List Landmark)) :
    (ahmdProcessFrame ⟨p, b, t, some (), true⟩ (first :: rest) true).events =
      [SerialEvent.write (pyStrBytes (akCountFingers first))] ∧
    pyStrBytes n = decimalBytes n ∧
    pyStrBytes 3 = [51] := by
  refine ⟨?_, rfl, rfl⟩
  simp [ahmdProcessFrame, akSendData]

/-- C10: the finger count of a 21-landmark hand depends only on the
horizontal coordinates of landmarks 3 and 4 and the vertical coordinates
of landmarks 6, 8, 10, 12, 14, 16, 18 and 20: two 21-landmark inputs
agreeing on those ten values have equal counts. -/
theorem c10_count_noninterference (l1 l2 : List Landmark)
    (h1 : l1.length = 21) (h2 : l2.length = 21)
    (hx3 : (lmGet l1 3).x = (lmGet l2 3).x)
    (hx4 : (lmGet l1 4).x = (lmGet l2 4).x)
    (hy6 : (lmGet l1 6).y = (lmGet l2 6).y)
    (hy8 : (lmGet l1 8).y = (lmGet l2 8).y)
    (hy10 : (lmGet l1 10).y = (lmGet l2 10).y)
    (hy12 : (lmGet l1 12).y = (lmGet l2 12).y)
    (hy14 : (lmGet l1 14).y = (lmGet l2 14).y)
    (hy16 : (lmGet l1 16).y = (lmGet l2 16).y)
    (hy18 : (lmGet l1 18).y = (lmGet l2 18).y)
    (hy20 : (lmGet l1 20).y = (lmGet l2 20).y) :
    akCountFingers l1 = akCountFingers l2 := by
  rw [akCountFingers_eq_sum l1 h1, akCountFingers_eq_sum l2 h2]
  have ht : akThumbBit l1 = akThumbBit l2 := by
    show (if (lmGet l1 3).x < (lmGet l1 4).x then 1 else 0) =
      (if (lmGet l2 3).x < (lmGet l2 4).x then 1 else 0)
    rw [hx3, hx4]
  have hf1 : akFingerBit l1 1 = akFingerBit l2 1 := by
    show (if (lmGet l1 8).y < (lmGet l1 6).y then 1 else 0) =
      (if (lmGet l2 8).y < (lmGet l2 6).y then 1 else 0)
    rw [hy8, hy6]
  have hf2 : akFingerBit l1 2 = akFingerBit l2 2 := by
    show (if (lmGet l1 12).y < (lmGet l1 10).y then 1 else 0) =
      (if (lmGet l2 12).y < (lmGet l2 10).y then 1 else 0)
    rw [hy12, hy10]
  have hf3 : akFingerBit l1 3 = akFingerBit l2 3 := by
    show (if (lmGet l1 16).y < (lmGet l1 14).y then 1 else 0) =
      (if (lmGet l2 16).y < (lmGet l2 14).y then 1 else 0)
    rw [hy16, hy14]
  have hf4 : akFingerBit l1 4 = akFingerBit l2 4 := by
    show (if (lmGet l1 20).y < (lmGet l1 18).y then 1 else 0) =
      (if (lmGet l2 20).y < (lmGet l2 18).y then 1 else 0)
    rw [hy20, hy18]
  rw [ht, hf1, hf2, hf3, hf4]

theorem c10_count_noninterference_witness :
    testHand3.length = 21 ∧ testHand3Moved.length = 21 ∧
    (lmGet testHand3 3).x = (lmGet testHand3Moved 3).x ∧
    (lmGet testHand3 4).x = (lmGet testHand3Moved 4).x ∧
    (lmGet testHand3 6).y = (lmGet testHand3Moved 6).y ∧
    (lmGet testHand3 8).y = (lmGet testHand3Moved 8).y ∧
    (lmGet testHand3 10).y = (lmGet testHand3Moved 10).y ∧
    (lmGet testHand3 12).y = (lmGet testHand3Moved 12).y ∧
    (lmGet testHand3 14).y = (lmGet testHand3Moved 14).y ∧
    (lmGet testHand3 16).y = (lmGet testHand3Moved 16).y ∧
    (lmGet testHand3 18).y = (lmGet testHand3Moved 18).y ∧
    (lmGet testHand3 20).y = (lmGet testHand3Moved 20).y ∧
    akCountFingers testHand3 = akCountFingers testHand3Moved :=
  ⟨by decide, by decide, by decide, by decide, by decide, by decide, by decide,
    by decide, by decide, by decide, by decide, by decide,
    c10_count_noninterference testHand3 testHand3Moved (by decide) (by decide)
      (by decide) (by decide) (by decide) (by decide) (by decide) (by decide)
      (by decide) (by decide) (by decide) (by decide)⟩

end HandArduino
